import Mathlib

/-!
Shallow embedding of src/scripts/send_emails.py.

The script orchestrates three external collaborators (Google Sheets read,
OpenAI generation, SMTP delivery) around a JSON checkpoint file.  The
embedding models:

  * the checkpoint record (Status) with fields last_index and sent_emails,
    exactly the keys of data/email_status.json;
  * the file system location of the checkpoint as an
    Option (Except Unit Status): none means the file is absent
    (os.path.exists is false); some r means the file exists and json.load
    of its contents either parses to a Status (Except.ok) or raises
    (Except.error), since json.load on corrupt contents raises;
  * the spreadsheet adapter get_professor_data over the raw rows
    (List (List String)) returned by the Sheets API;
  * the per-contact external calls generate_email_content and send_email
    as an oracle Nat -> Outcome giving, for each absolute contact index,
    whether generation raises (genFail), delivery raises (sendFail), or
    the send succeeds (success).  send_email returns True on the non
    raising path, so these three outcomes are exhaustive;
  * the mainScript function as state passing over the checkpoint file.

The loop additionally records, for verification only, which addresses had
the try block entered (attempted, i.e. generation invoked) and which
addresses reached send_email (dispatched).
-/

/-- A row of the spreadsheet turned into a contact, mirroring the dict
built in get_professor_data. -/
structure Professor where
  name : String
  research_domain : String
  email : String
  university : String
deriving DecidableEq

/-- The persisted checkpoint: the JSON object with keys last_index and
sent_emails. -/
structure Status where
  last_index : Nat
  sent_emails : List String
deriving DecidableEq

/-- EMAILS_PER_DAY = 10 in the script. -/
def EMAILS_PER_DAY : Nat := 10

/-- Embedding of get_professor_data row handling: a row with at least
three cells yields a contact whose university field is the fourth cell
when present and "Unknown" otherwise; shorter rows yield nothing. -/
def rowToProfessor : List String → Option Professor
  | name :: domain :: email :: rest =>
      some ⟨name, domain, email,
        match rest with
        | u :: _ => u
        | [] => "Unknown"⟩
  | _ => none

/-- Embedding of get_professor_data: the early return on empty values,
then the row loop, which appends exactly the rows with at least three
cells. -/
def get_professor_data (values : List (List String)) : List Professor :=
  if values.isEmpty then []
  else values.filterMap rowToProfessor

/-- Embedding of load_email_status: if the file exists (some r) the
result of json.load is returned or its exception propagates; if the file
is absent the default checkpoint is returned. -/
def load_email_status (file : Option (Except Unit Status)) : Except Unit Status :=
  match file with
  | some r => r
  | none => Except.ok ⟨0, []⟩

/-- Embedding of save_email_status: json.dump of a status dict writes a
file whose later json.load parses back to the same status, so the new
file contents are some (Except.ok st).  Directory creation
(os.makedirs with exist_ok) has no observable effect in this model. -/
def save_email_status (st : Status) : Option (Except Unit Status) :=
  some (Except.ok st)

/-- Per-contact result of the external calls inside the try block:
generation raises, delivery raises, or the send succeeds. -/
inductive Outcome
  | genFail
  | sendFail
  | success
deriving DecidableEq

/-- State carried through the for loop of mainScript: the sent_emails list and
emails_sent counter from the script, plus two verification-only traces of
addresses whose try block was entered (attempted) and addresses passed to
send_email (dispatched). -/
structure LoopState where
  sent_emails : List String
  emails_sent : Nat
  attempted : List String
  dispatched : List String
deriving DecidableEq

/-- One iteration of the for loop of mainScript at index i: skip when the
address is already in sent_emails; otherwise run generation and delivery
per the oracle, appending the address to sent_emails and bumping
emails_sent only on success, and swallowing exceptions otherwise. -/
def sendStep (oracle : Nat → Outcome) (professors : List Professor) (i : Nat)
    (st : LoopState) : LoopState :=
  match professors[i]? with
  | none => st
  | some prof =>
    if prof.email ∈ st.sent_emails then st
    else
      match oracle i with
      | Outcome.genFail =>
          ⟨st.sent_emails, st.emails_sent, st.attempted ++ [prof.email], st.dispatched⟩
      | Outcome.sendFail =>
          ⟨st.sent_emails, st.emails_sent, st.attempted ++ [prof.email],
            st.dispatched ++ [prof.email]⟩
      | Outcome.success =>
          ⟨st.sent_emails ++ [prof.email], st.emails_sent + 1,
            st.attempted ++ [prof.email], st.dispatched ++ [prof.email]⟩

/-- The for loop of mainScript over range(i, i + n): n iterations starting at
index i. -/
def sendLoop (oracle : Nat → Outcome) (professors : List Professor) :
    Nat → Nat → LoopState → LoopState
  | _, 0, st => st
  | i, Nat.succ n, st =>
      sendLoop oracle professors (i + 1) n (sendStep oracle professors i st)

/-- The body of mainScript after the empty check and the checkpoint load: the
window loop followed by the unconditional update
last_index := min (last_index + EMAILS_PER_DAY) (length professors).
Returns the status that will be saved together with the final loop
state. -/
def mainRun (oracle : Nat → Outcome) (professors : List Professor)
    (status : Status) : Status × LoopState :=
  let endIdx := min (status.last_index + EMAILS_PER_DAY) professors.length
  let final := sendLoop oracle professors status.last_index
      (endIdx - status.last_index) ⟨status.sent_emails, 0, [], []⟩
  (⟨endIdx, final.sent_emails⟩, final)

/-- Embedding of the main function over the checkpoint file (named
mainScript since main is reserved): an empty contact list
returns before load_email_status and leaves the file untouched; a load
exception propagates (the run dies before any mutation); otherwise the
window is processed and the updated status saved.  The returned number is
emails_sent. -/
def mainScript (oracle : Nat → Outcome) (professors : List Professor)
    (file : Option (Except Unit Status)) :
    Except Unit (Option (Except Unit Status) × Nat) :=
  if professors.isEmpty then Except.ok (file, 0)
  else
    match load_email_status file with
    | Except.error e => Except.error e
    | Except.ok status =>
        let r := mainRun oracle professors status
        Except.ok (save_email_status r.1, r.2.emails_sent)

/-- Iterated invocations of mainScript against the persisted file, starting
from an absent file: runsFile oracles professors k is the file after k
runs, where run j uses the per-run oracle oracles j.  A run that raises
leaves the file as it was. -/
def runsFile (oracles : Nat → Nat → Outcome) (professors : List Professor) :
    Nat → Option (Except Unit Status)
  | 0 => none
  | Nat.succ k =>
      match mainScript (oracles k) professors (runsFile oracles professors k) with
      | Except.ok (f, _) => f
      | Except.error _ => runsFile oracles professors k

/-- C1, counterexample: with the checkpoint file present but unparsable,
load_email_status propagates the json.load exception instead of
returning the default checkpoint, contradicting the claim. -/
theorem c1_counterexample :
    load_email_status (some (Except.error ())) ≠
      Except.ok (⟨0, []⟩ : Status) := by
  simp [load_email_status]

/-- C1, amended: load_email_status returns the default checkpoint when
the file is absent; when the file exists, the json.load result, raised
exception included, propagates unchanged. -/
theorem c1_amended_default_only_when_absent :
    load_email_status none = Except.ok (⟨0, []⟩ : Status)
    ∧ ∀ r : Except Unit Status, load_email_status (some r) = r :=
  ⟨rfl, fun _ => rfl⟩

/-- C7: with an empty contact list, mainScript returns before loading the
checkpoint: the processed count is 0 and the file, whatever its state,
absent included, is returned untouched. -/
theorem c7_empty_input_no_mutation (oracle : Nat → Outcome)
    (file : Option (Except Unit Status)) :
    mainScript oracle ([] : List Professor) file = Except.ok (file, 0) :=
  rfl

/-- Exceptions caught per contact never change sent_emails except by
appending, so membership in sent_emails is preserved by one loop
iteration. -/
lemma sendStep_sent_mono (oracle : Nat → Outcome) (professors : List Professor)
    (i : Nat) (st : LoopState) (e : String) (h : e ∈ st.sent_emails) :
    e ∈ (sendStep oracle professors i st).sent_emails := by
  unfold sendStep
  split
  · exact h
  · split
    · exact h
    · split <;> simp [h]

/-- An address already in sent_emails is never newly attempted by one
loop iteration: the membership check precedes the try block. -/
lemma sendStep_not_attempted (oracle : Nat → Outcome) (professors : List Professor)
    (i : Nat) (st : LoopState) (e : String) (h1 : e ∈ st.sent_emails)
    (h2 : e ∉ st.attempted) : e ∉ (sendStep oracle professors i st).attempted := by
  unfold sendStep
  split
  · exact h2
  · split
    · exact h2
    · rename_i prof hp hmem
      have hne : prof.email ≠ e := fun hc => hmem (hc ▸ h1)
      have key : e ∉ st.attempted ++ [prof.email] := by
        simp only [List.mem_append, List.mem_singleton]
        rintro (hc | hc)
        · exact h2 hc
        · exact hne hc.symm
      split <;> exact key

/-- An address already in sent_emails is never newly dispatched by one
loop iteration. -/
lemma sendStep_not_dispatched (oracle : Nat → Outcome) (professors : List Professor)
    (i : Nat) (st : LoopState) (e : String) (h1 : e ∈ st.sent_emails)
    (h2 : e ∉ st.dispatched) : e ∉ (sendStep oracle professors i st).dispatched := by
  unfold sendStep
  split
  · exact h2
  · split
    · exact h2
    · rename_i prof hp hmem
      have hne : prof.email ≠ e := fun hc => hmem (hc ▸ h1)
      have key : e ∉ st.dispatched ++ [prof.email] := by
        simp only [List.mem_append, List.mem_singleton]
        rintro (hc | hc)
        · exact h2 hc
        · exact hne hc.symm
      split
      · exact h2
      · exact key
      · exact key

/-- One loop iteration preserves freedom from duplicates of sent_emails:
an address is appended only after the membership check found it
absent. -/
lemma sendStep_nodup (oracle : Nat → Outcome) (professors : List Professor)
    (i : Nat) (st : LoopState) (h : st.sent_emails.Nodup) :
    (sendStep oracle professors i st).sent_emails.Nodup := by
  unfold sendStep
  split
  · exact h
  · split
    · exact h
    · rename_i prof hmem
      split <;> simp [List.nodup_append, h, hmem]

/-- Membership in sent_emails is preserved by the whole loop. -/
lemma sendLoop_sent_mono (oracle : Nat → Outcome) (professors : List Professor) :
    ∀ (n i : Nat) (st : LoopState) (e : String), e ∈ st.sent_emails →
      e ∈ (sendLoop oracle professors i n st).sent_emails := by
  intro n
  induction n with
  | zero => intro i st e h; exact h
  | succ n ih =>
      intro i st e h
      exact ih (i + 1) _ e (sendStep_sent_mono oracle professors i st e h)

/-- An address in sent_emails at loop entry is never attempted during
the loop. -/
lemma sendLoop_not_attempted (oracle : Nat → Outcome) (professors : List Professor) :
    ∀ (n i : Nat) (st : LoopState) (e : String), e ∈ st.sent_emails →
      e ∉ st.attempted → e ∉ (sendLoop oracle professors i n st).attempted := by
  intro n
  induction n with
  | zero => intro i st e _ h2; exact h2
  | succ n ih =>
      intro i st e h1 h2
      exact ih (i + 1) _ e (sendStep_sent_mono oracle professors i st e h1)
        (sendStep_not_attempted oracle professors i st e h1 h2)

/-- An address in sent_emails at loop entry is never dispatched during
the loop. -/
lemma sendLoop_not_dispatched (oracle : Nat → Outcome) (professors : List Professor) :
    ∀ (n i : Nat) (st : LoopState) (e : String), e ∈ st.sent_emails →
      e ∉ st.dispatched → e ∉ (sendLoop oracle professors i n st).dispatched := by
  intro n
  induction n with
  | zero => intro i st e _ h2; exact h2
  | succ n ih =>
      intro i st e h1 h2
      exact ih (i + 1) _ e (sendStep_sent_mono oracle professors i st e h1)
        (sendStep_not_dispatched oracle professors i st e h1 h2)

/-- The whole loop preserves freedom from duplicates of sent_emails. -/
lemma sendLoop_nodup (oracle : Nat → Outcome) (professors : List Professor) :
    ∀ (n i : Nat) (st : LoopState), st.sent_emails.Nodup →
      (sendLoop oracle professors i n st).sent_emails.Nodup := by
  intro n
  induction n with
  | zero => intro i st h; exact h
  | succ n ih =>
      intro i st h
      exact ih (i + 1) _ (sendStep_nodup oracle professors i st h)

/-- The saved last_index is min (last_index + EMAILS_PER_DAY) (number of
contacts), independent of anything that happened in the loop. -/
lemma mainRun_last_index (oracle : Nat → Outcome) (professors : List Professor)
    (status : Status) :
    ((mainRun oracle professors status).1).last_index
      = min (status.last_index + EMAILS_PER_DAY) professors.length :=
  rfl

/-- The saved sent_emails list is the final sent_emails of the loop
started from the loaded list. -/
lemma mainRun_sent_emails (oracle : Nat → Outcome) (professors : List Professor)
    (status : Status) :
    ((mainRun oracle professors status).1).sent_emails
      = (sendLoop oracle professors status.last_index
          (min (status.last_index + EMAILS_PER_DAY) professors.length
            - status.last_index)
          ⟨status.sent_emails, 0, [], []⟩).sent_emails :=
  rfl

/-- Concrete contact used in witnesses and counterexamples. -/
def profA : Professor := ⟨"A", "ML", "a@u.edu", "U1"⟩

/-- Concrete contact used in witnesses and counterexamples. -/
def profB : Professor := ⟨"B", "CV", "b@u.edu", "U2"⟩

/-- Concrete contact used in witnesses and counterexamples. -/
def profC : Professor := ⟨"C", "NLP", "c@u.edu", "U3"⟩

/-- Concrete contact used in witnesses and counterexamples. -/
def profD : Professor := ⟨"D", "Rob", "d@u.edu", "U4"⟩

/-- Concrete contact used in witnesses and counterexamples. -/
def profE : Professor := ⟨"E", "HCI", "e@u.edu", "U5"⟩

/-- Oracle for the C2 scenario: generation raises for the second contact
of the window (index 1), every other contact succeeds. -/
def c2oracle : Nat → Outcome :=
  fun i => if i = 1 then Outcome.genFail else Outcome.success

/-- C2: per-contact failures are caught and the run continues, with the
saved last_index always min (last_index + EMAILS_PER_DAY) (length),
whatever the outcomes; concretely, over the window of the three contacts
profA, profB, profC where the second fails generation, the run ends with
last_index 3, sent_emails holding the first and third address only, a
processed count of 2, all three contacts attempted, and only the first
and third dispatched. -/
theorem c2_partial_failure_caught :
    (∀ (oracle : Nat → Outcome) (professors : List Professor) (status : Status),
        ((mainRun oracle professors status).1).last_index
          = min (status.last_index + EMAILS_PER_DAY) professors.length)
    ∧ mainRun c2oracle [profA, profB, profC] ⟨0, []⟩
        = (⟨3, ["a@u.edu", "c@u.edu"]⟩,
           ⟨["a@u.edu", "c@u.edu"], 2,
            ["a@u.edu", "b@u.edu", "c@u.edu"],
            ["a@u.edu", "c@u.edu"]⟩) :=
  ⟨fun oracle professors status => mainRun_last_index oracle professors status, rfl⟩

/-- C4: an address in the sent_emails list loaded at the start of a run
is neither attempted (generation never invoked) nor dispatched
(send_email never invoked) during that run. -/
theorem c4_delivered_never_redispatched (oracle : Nat → Outcome)
    (professors : List Professor) (status : Status) (email : String)
    (h : email ∈ status.sent_emails) :
    email ∉ (mainRun oracle professors status).2.attempted
    ∧ email ∉ (mainRun oracle professors status).2.dispatched := by
  constructor
  · exact sendLoop_not_attempted oracle professors _ _ _ email h (by simp)
  · exact sendLoop_not_dispatched oracle professors _ _ _ email h (by simp)

/-- C4 witness at a concrete input: the run over the single contact profA
whose address is already in sent_emails neither attempts nor dispatches
that address. -/
theorem c4_witness :
    "a@u.edu" ∉
      (mainRun (fun _ => Outcome.success) [profA] ⟨0, ["a@u.edu"]⟩).2.attempted
    ∧ "a@u.edu" ∉
      (mainRun (fun _ => Outcome.success) [profA] ⟨0, ["a@u.edu"]⟩).2.dispatched :=
  c4_delivered_never_redispatched (fun _ => Outcome.success) [profA]
    ⟨0, ["a@u.edu"]⟩ "a@u.edu" (by simp)

/-- C10: a run preserves freedom from duplicates of the sent_emails
list, because an address is appended only after the membership check
found it absent. -/
theorem c10_delivered_nodup_preserved (oracle : Nat → Outcome)
    (professors : List Professor) (status : Status)
    (h : status.sent_emails.Nodup) :
    ((mainRun oracle professors status).1).sent_emails.Nodup := by
  rw [mainRun_sent_emails]
  exact sendLoop_nodup oracle professors _ _ _ h

/-- C10 witness at a concrete input: a duplicate-free loaded list stays
duplicate-free after a run that sends to two fresh contacts, one of them
occurring twice in the window. -/
theorem c10_witness :
    ((mainRun (fun _ => Outcome.success) [profA, profB, profA]
        ⟨0, ["z@u.edu"]⟩).1).sent_emails.Nodup :=
  c10_delivered_nodup_preserved (fun _ => Outcome.success) [profA, profB, profA]
    ⟨0, ["z@u.edu"]⟩ (by simp)

/-- With a non-empty contact list and a checkpoint file that loads
cleanly, mainScript runs the window and saves the updated status. -/
lemma mainScript_ok (oracle : Nat → Outcome) (professors : List Professor)
    (h : professors ≠ []) (file : Option (Except Unit Status)) (status : Status)
    (hf : load_email_status file = Except.ok status) :
    mainScript oracle professors file
      = Except.ok (some (Except.ok ((mainRun oracle professors status).1)),
          ((mainRun oracle professors status).2).emails_sent) := by
  have hne : professors.isEmpty = false := by
    cases professors
    · exact absurd rfl h
    · rfl
  unfold mainScript
  rw [hne, hf]
  rfl

/-- The next resumption index recorded in a checkpoint file, when the
file exists and parses. -/
def fileNextIndex : Option (Except Unit Status) → Option Nat
  | some (Except.ok st) => some st.last_index
  | some (Except.error _) => none
  | none => none

/-- Shape of the file after any positive number of runs over a fixed
non-empty contact list: it exists, parses, and its last_index is the
window bound min ((number of runs) * EMAILS_PER_DAY) (length). -/
lemma runsFile_ok (oracles : Nat → Nat → Outcome) (professors : List Professor)
    (h : professors ≠ []) :
    ∀ k : Nat, ∃ st : Status,
      runsFile oracles professors (k + 1) = some (Except.ok st)
      ∧ st.last_index = min ((k + 1) * EMAILS_PER_DAY) professors.length := by
  intro k
  induction k with
  | zero =>
      refine ⟨(mainRun (oracles 0) professors ⟨0, []⟩).1, ?_, ?_⟩
      · show (match mainScript (oracles 0) professors none with
              | Except.ok (f, _) => f
              | Except.error _ => none) = _
        rw [mainScript_ok (oracles 0) professors h none ⟨0, []⟩ rfl]
      · rw [mainRun_last_index]
        simp [EMAILS_PER_DAY]
  | succ k ih =>
      obtain ⟨st, hfile, hlast⟩ := ih
      refine ⟨(mainRun (oracles (k + 1)) professors st).1, ?_, ?_⟩
      · show (match mainScript (oracles (k + 1)) professors
                  (runsFile oracles professors (k + 1)) with
              | Except.ok (f, _) => f
              | Except.error _ => runsFile oracles professors (k + 1)) = _
        rw [hfile, mainScript_ok (oracles (k + 1)) professors h
          (some (Except.ok st)) st rfl]
      · rw [mainRun_last_index, hlast]
        simp only [EMAILS_PER_DAY]
        omega

/-- C3: for a fixed non-empty contact list, after k + 1 runs starting
from an absent checkpoint file the persisted next index equals
min ((k + 1) * EMAILS_PER_DAY) (length), whatever the per-contact
outcomes of each run were. -/
theorem c3_resumption_monotonicity (oracles : Nat → Nat → Outcome)
    (professors : List Professor) (h : professors ≠ []) (k : Nat) :
    fileNextIndex (runsFile oracles professors (k + 1))
      = some (min ((k + 1) * EMAILS_PER_DAY) professors.length) := by
  obtain ⟨st, hfile, hlast⟩ := runsFile_ok oracles professors h k
  rw [hfile, ← hlast]
  rfl

/-- C3 witness at a concrete input: one run over the single contact
profA, every outcome succeeding, persists next index
min (1 * EMAILS_PER_DAY) 1 = 1. -/
theorem c3_witness :
    fileNextIndex (runsFile (fun _ _ => Outcome.success) [profA] (0 + 1))
      = some (min ((0 + 1) * EMAILS_PER_DAY) ([profA] : List Professor).length) :=
  c3_resumption_monotonicity (fun _ _ => Outcome.success) [profA] (by simp) 0

/-- First run of the C5 scenario: five contacts, every outcome
succeeding, starting from an absent checkpoint file. -/
def c5file1 : Option (Except Unit Status) :=
  match mainScript (fun _ => Outcome.success) [profA, profB, profC, profD, profE]
      none with
  | Except.ok (f, _) => f
  | Except.error _ => none

/-- Second run of the C5 scenario against the file left by the first
run, after the contact list shrank to the single contact profA. -/
def c5file2 : Option (Except Unit Status) :=
  match mainScript (fun _ => Outcome.success) [profA] c5file1 with
  | Except.ok (f, _) => f
  | Except.error _ => c5file1

/-- C5, counterexample: a first run over five contacts persists next
index 5; a second run whose contact list shrank to one contact rewrites
it to min (5 + EMAILS_PER_DAY) 1 = 1, so the persisted next_index
decreases across runs when the list length changes. -/
theorem c5_counterexample :
    fileNextIndex c5file1 = some 5 ∧ fileNextIndex c5file2 = some 1
    ∧ ¬ (5 : Nat) ≤ 1 :=
  ⟨rfl, rfl, by decide⟩

/-- C5, amended: in every run, shrunk contact list or not, the loaded
sent_emails addresses all survive into the saved sent_emails (the list
only grows); and whenever the contact list is at least as long as the
loaded next index, last_index does not decrease. -/
theorem c5_amended_invariant (oracle : Nat → Outcome)
    (professors : List Professor) (status : Status) :
    (status.last_index ≤ professors.length →
        status.last_index ≤ ((mainRun oracle professors status).1).last_index)
    ∧ ∀ e, e ∈ status.sent_emails →
        e ∈ ((mainRun oracle professors status).1).sent_emails := by
  constructor
  · intro h
    rw [mainRun_last_index]
    exact le_min (Nat.le_add_right _ _) h
  · intro e he
    rw [mainRun_sent_emails]
    exact sendLoop_sent_mono oracle professors _ _ _ e he

/-- C5 witness at concrete inputs: a run over the single fresh contact
profA from next index 0 keeps the index non-decreasing, and a run over
the same single contact from next index 5 (the list shrank below the
loaded index) still retains the delivered address. -/
theorem c5_amended_witness :
    (⟨0, ["z@u.edu"]⟩ : Status).last_index ≤
      ((mainRun (fun _ => Outcome.success) [profA]
        ⟨0, ["z@u.edu"]⟩).1).last_index
    ∧ "z@u.edu" ∈ ((mainRun (fun _ => Outcome.success) [profA]
        ⟨5, ["z@u.edu"]⟩).1).sent_emails :=
  ⟨(c5_amended_invariant (fun _ => Outcome.success) [profA]
      ⟨0, ["z@u.edu"]⟩).1 (by simp),
   (c5_amended_invariant (fun _ => Outcome.success) [profA]
      ⟨5, ["z@u.edu"]⟩).2 "z@u.edu" (by simp)⟩

/-- C6: when the loaded checkpoint index already equals the length of a
non-empty contact list, the run processes zero contacts, reports 0, and
saves back a checkpoint identical to the loaded one. -/
theorem c6_exhaustion (oracle : Nat → Outcome) (professors : List Professor)
    (status : Status) (h1 : status.last_index = professors.length)
    (h2 : 0 < professors.length) :
    mainScript oracle professors (some (Except.ok status))
      = Except.ok (some (Except.ok status), 0)
    ∧ (mainRun oracle professors status).2
      = ⟨status.sent_emails, 0, [], []⟩ := by
  have hne : professors ≠ [] := by
    intro hc
    rw [hc] at h2
    exact absurd h2 (by simp)
  have hrun : mainRun oracle professors status
      = (status, ⟨status.sent_emails, 0, [], []⟩) := by
    obtain ⟨last, sent⟩ := status
    simp only [Status.mk.injEq] at h1
    subst h1
    unfold mainRun
    simp [Nat.min_eq_right (Nat.le_add_right professors.length EMAILS_PER_DAY),
      sendLoop]
  constructor
  · rw [mainScript_ok oracle professors hne (some (Except.ok status)) status rfl]
    rw [hrun]
  · rw [hrun]

/-- C6 witness at a concrete input: with the single contact profA and a
loaded checkpoint index of 1, the run changes nothing and reports 0. -/
theorem c6_witness :
    mainScript (fun _ => Outcome.success) [profA]
        (some (Except.ok ⟨1, ["x@u.edu"]⟩))
      = Except.ok (some (Except.ok ⟨1, ["x@u.edu"]⟩), 0)
    ∧ (mainRun (fun _ => Outcome.success) [profA] ⟨1, ["x@u.edu"]⟩).2
      = ⟨["x@u.edu"], 0, [], []⟩ :=
  c6_exhaustion (fun _ => Outcome.success) [profA] ⟨1, ["x@u.edu"]⟩
    (by simp) (by simp)

/-- The condition the row loop of get_professor_data checks before
keeping a row: at least three cells. -/
def rowLongEnough : List String → Bool
  | _ :: _ :: _ :: _ => true
  | _ => false

/-- Projection used to state C9: the contact a kept row is turned into.
On rows of exactly three cells the university falls back to
"Unknown"; the catch-all case is never reached on kept rows. -/
def profOfRow : List String → Professor
  | name :: domain :: email :: u :: _ => ⟨name, domain, email, u⟩
  | name :: domain :: email :: [] => ⟨name, domain, email, "Unknown"⟩
  | _ => ⟨"", "", "", "Unknown"⟩

/-- rowLongEnough decides exactly the three-cell bound. -/
lemma rowLongEnough_eq_decide (row : List String) :
    rowLongEnough row = decide (3 ≤ row.length) := by
  match row with
  | [] => rfl
  | [_] => rfl
  | [_, _] => rfl
  | a :: b :: c :: rest =>
      have h3 : 3 ≤ (a :: b :: c :: rest).length := by
        simp only [List.length_cons]
        omega
      simp [rowLongEnough, h3]

/-- The row loop keeps exactly the long-enough rows, each mapped through
profOfRow. -/
lemma filterMap_rowToProfessor (values : List (List String)) :
    values.filterMap rowToProfessor
      = (values.filter rowLongEnough).map profOfRow := by
  induction values with
  | nil => rfl
  | cons r vs ih =>
      rcases r with _ | ⟨a, _ | ⟨b, _ | ⟨c, rest⟩⟩⟩
      · simpa [List.filterMap_cons, List.filter_cons, rowToProfessor,
          rowLongEnough] using ih
      · simpa [List.filterMap_cons, List.filter_cons, rowToProfessor,
          rowLongEnough] using ih
      · simpa [List.filterMap_cons, List.filter_cons, rowToProfessor,
          rowLongEnough] using ih
      · cases rest with
        | nil =>
            simpa [List.filterMap_cons, List.filter_cons, rowToProfessor,
              rowLongEnough, profOfRow] using ih
        | cons u us =>
            simpa [List.filterMap_cons, List.filter_cons, rowToProfessor,
              rowLongEnough, profOfRow] using ih

/-- C9: get_professor_data returns exactly the rows with at least three
cells, in order, so checkpoint indices address positions in this
filtered list rather than spreadsheet row numbers; the keep condition is
precisely the three-cell bound; and a row of exactly three cells gets
university "Unknown". -/
theorem c9_short_rows_excluded (values : List (List String)) :
    get_professor_data values = (values.filter rowLongEnough).map profOfRow
    ∧ (∀ row : List String, rowLongEnough row = decide (3 ≤ row.length))
    ∧ ∀ name domain email : String,
        rowToProfessor [name, domain, email]
          = some ⟨name, domain, email, "Unknown"⟩ := by
  refine ⟨?_, rowLongEnough_eq_decide, fun _ _ _ => rfl⟩
  unfold get_professor_data
  cases values with
  | nil => rfl
  | cons r vs =>
      show (r :: vs).filterMap rowToProfessor = _
      exact filterMap_rowToProfessor (r :: vs)
